import Mathlib

/-!
Performance monitor CLI: detector, analyzer and reporter.

A shallow embedding of `internal/detector/detector.go`,
`internal/analyzer/analyzer.go` and `internal/reporter/reporter.go`.

Conventions of the embedding:

* a Go `(*T, error)` result is a pair `Option T × Option String`: the pointer
  (`none` is `nil`) and the error (`none` is `nil`, `some msg` carries
  `err.Error()`);
* a Go `map[string]string` is a `GoMap`: either the nil map or an allocated
  association list with pairwise distinct keys;
* a pointer to a record that a function mutates in place is passed as a value
  and returned;
* the operating system and the standard library (`os.Stat`, `os.ReadFile`,
  `filepath.Join`, `json.Unmarshal`, `os.Create`, `fmt` verbs, `time`) are
  parameters collected in the structures `Env` and `ReportEnv`.
-/

/-! ## Go run-time values -/

/-- Outcome of running a Go function: it returns normally or it aborts with a
run-time panic. -/
inductive Run (α : Type) where
  | ret (a : α) : Run α
  | panic (msg : String) : Run α
  deriving DecidableEq, Repr

/-- A Go `map[string]string`: the nil map, or an allocated map. -/
inductive GoMap where
  | nil : GoMap
  | alloc (m : AList (fun _ : String => String)) : GoMap
  deriving DecidableEq

namespace GoMap

/-- The result of `make(map[string]string)`. -/
def make : GoMap := alloc ∅

/-- The two-valued index expression `v, ok := m[k]`; `none` is `ok = false`. -/
def lookup : GoMap → String → Option String
  | nil, _ => none
  | alloc m, k => m.lookup k

/-- The `exists` flag of `_, exists := m[k]`. -/
def has (m : GoMap) (k : String) : Bool := (m.lookup k).isSome

/-- The entries visited by `for k, v := range m`; a nil map has none. -/
def range : GoMap → List (Sigma (fun _ : String => String))
  | nil => []
  | alloc m => m.entries

/-- The builtin `len(m)`. -/
def len (m : GoMap) : Nat := m.range.length

/-- The assignment `m[k] = v`; `none` is the run-time panic
"assignment to entry in nil map". -/
def assign : GoMap → String → String → Option GoMap
  | nil, _, _ => none
  | alloc m, k, v => some (alloc (m.insert k v))

/-- The loop `for k, v := range src { dst[k] = v }`; `none` is a panic. -/
def rangeAssign (dst src : GoMap) : Option GoMap :=
  src.range.foldlM (fun acc kv => acc.assign kv.1 kv.2) dst

/-- Whether the map value is the nil map. -/
def isNil : GoMap → Bool
  | nil => true
  | alloc _ => false

end GoMap

/-! ## internal/detector/detector.go -/

namespace detector

/-- The record `ProjectInfo`. -/
structure ProjectInfo where
  /-- The field `Type` (a reserved word in Lean, hence the underscore). -/
  Type_ : String
  Framework : String
  BuildTool : String
  Language : String
  Dependencies : GoMap
  Scripts : GoMap
  RootPath : String
  deriving DecidableEq

/-- The record `PackageJSON`, the decoded `package.json`. -/
structure PackageJSON where
  Dependencies : GoMap
  DevDependencies : GoMap
  Scripts : GoMap
  deriving DecidableEq

/-- The operating system and library calls the detector makes. -/
structure Env where
  /-- The call `filepath.Join(rootPath, filename)`. -/
  Join : String → String → String
  /-- Whether `os.Stat(path)` returns a nil error. -/
  Stat : String → Bool
  /-- The call `os.ReadFile(path)`: the bytes read, or the error text. -/
  ReadFile : String → Except String (List Nat)
  /-- The call `json.Unmarshal(data, &pkg)` on a zero `PackageJSON`: the
  decoded record, or the error text. -/
  Unmarshal : List Nat → Except String PackageJSON

/-- The function `hasFile`. -/
def hasFile (env : Env) (rootPath filename : String) : Bool :=
  env.Stat (env.Join rootPath filename)

/-- The function `detectFramework`. -/
def detectFramework (deps : GoMap) : String :=
  if deps.has "next" then "Next.js"
  else if deps.has "react" then "React"
  else if deps.has "vue" then "Vue.js"
  else if deps.has "angular" then "Angular"
  else if deps.has "svelte" then "Svelte"
  else "Vanilla JavaScript"

/-- The function `detectBuildTool`. -/
def detectBuildTool (env : Env) (rootPath : String) (deps : GoMap) : String :=
  if hasFile env rootPath "vite.config.js" || hasFile env rootPath "vite.config.ts" then "Vite"
  else if hasFile env rootPath "webpack.config.js" || hasFile env rootPath "webpack.config.ts" then
    "Webpack"
  else if deps.has "parcel" then "Parcel"
  else if hasFile env rootPath "rollup.config.js" then "Rollup"
  else "Unknown"

/-- The function `detectJSProject`; `info` is the record behind the pointer
argument. -/
def detectJSProject (env : Env) (rootPath : String) (info : ProjectInfo) :
    Run (Option ProjectInfo × Option String) :=
  let info := { info with Type_ := "JavaScript", Language := "JavaScript" }
  let packagePath := env.Join rootPath "package.json"
  match env.ReadFile packagePath with
  | .error err => .ret (none, some ("error reading package.json: " ++ err))
  | .ok data =>
    match env.Unmarshal data with
    | .error err => .ret (none, some ("error parsing package.json: " ++ err))
    | .ok pkg =>
      match info.Dependencies.rangeAssign pkg.Dependencies with
      | none => .panic "assignment to entry in nil map"
      | some deps1 =>
        match deps1.rangeAssign pkg.DevDependencies with
        | none => .panic "assignment to entry in nil map"
        | some deps2 =>
          let info := { info with Dependencies := deps2, Scripts := pkg.Scripts }
          let info := { info with Framework := detectFramework info.Dependencies }
          let info := { info with BuildTool := detectBuildTool env rootPath info.Dependencies }
          .ret (some info, none)

/-- The function `detectGoProject`. -/
def detectGoProject (_rootPath : String) (info : ProjectInfo) :
    Run (Option ProjectInfo × Option String) :=
  .ret (some { info with
    Type_ := "Go", Language := "Go", Framework := "Standard Library", BuildTool := "Go Build" },
    none)

/-- The function `detectPythonProject`. -/
def detectPythonProject (_rootPath : String) (info : ProjectInfo) :
    Run (Option ProjectInfo × Option String) :=
  .ret (some { info with Type_ := "Python", Language := "Python" }, none)

/-- The function `detectJavaProject`. -/
def detectJavaProject (_rootPath : String) (info : ProjectInfo) :
    Run (Option ProjectInfo × Option String) :=
  .ret (some { info with Type_ := "Java", Language := "Java" }, none)

/-- The function `DetectProject`. The fields the composite literal does not
name hold the zero value, the empty string. -/
def DetectProject (env : Env) (rootPath : String) : Run (Option ProjectInfo × Option String) :=
  let info : ProjectInfo :=
    { Type_ := "", Framework := "", BuildTool := "", Language := "",
      Dependencies := GoMap.make, Scripts := GoMap.make, RootPath := rootPath }
  if hasFile env rootPath "package.json" then detectJSProject env rootPath info
  else if hasFile env rootPath "go.mod" then detectGoProject rootPath info
  else if hasFile env rootPath "requirements.txt" || hasFile env rootPath "pyproject.toml" then
    detectPythonProject rootPath info
  else if hasFile env rootPath "pom.xml" || hasFile env rootPath "build.gradle" then
    detectJavaProject rootPath info
  else .ret (none, some "unknown project type - no recognized project files found")

end detector

/-! ## internal/analyzer/analyzer.go -/

namespace analyzer

open detector

/-- A `time.Time` instant, identified by its Unix time in nanoseconds. -/
structure Time where
  unixNano : Int
  deriving DecidableEq

/-- The constant `time.Second`, a `time.Duration` counted in nanoseconds. -/
def Second : Int := 1000000000

/-- A `float64`, identified by its IEEE 754 bit pattern. -/
structure Float64 where
  bits : Nat
  deriving DecidableEq

/-- The record `BuildMetrics`; `Warnings` is a slice, `none` the nil slice. -/
structure BuildMetrics where
  BuildTime : Int
  BundleSize : Int
  Dependencies : Int
  Warnings : Option (List String)
  deriving DecidableEq

/-- The record `RuntimeMetrics`. -/
structure RuntimeMetrics where
  StartupTime : Int
  MemoryUsage : Int
  CPUUsage : Float64
  deriving DecidableEq

/-- The record `StaticMetrics`. -/
structure StaticMetrics where
  LinesOfCode : Int
  Complexity : Int
  TestCoverage : Float64
  Issues : Option (List String)
  deriving DecidableEq

/-- The record `MemoryMetrics`. -/
structure MemoryMetrics where
  HeapSize : Int
  AllocatedMem : Int
  GCCount : Int
  deriving DecidableEq

/-- The record `NetworkMetrics`. -/
structure NetworkMetrics where
  RequestCount : Int
  AvgLatency : Float64
  ErrorRate : Float64
  deriving DecidableEq

/-- The record `AnalysisResult`; a pointer field is an `Option`, `none` being
the nil pointer. -/
structure AnalysisResult where
  ProjectInfo : Option ProjectInfo
  BuildMetrics : Option BuildMetrics
  RuntimeMetrics : Option RuntimeMetrics
  StaticMetrics : Option StaticMetrics
  MemoryMetrics : Option MemoryMetrics
  NetworkMetrics : Option NetworkMetrics
  Timestamp : Time
  deriving DecidableEq

/-- The function `analyzeJSProject`. -/
def analyzeJSProject (projectInfo : ProjectInfo) (result : AnalysisResult) :
    Option AnalysisResult × Option String :=
  (some { result with
    BuildMetrics := some
      { BuildTime := Second * 5
        BundleSize := 1024 * 1024
        Dependencies := projectInfo.Dependencies.len
        Warnings := some [] } }, none)

/-- The function `analyzeGoProject`. -/
def analyzeGoProject (projectInfo : ProjectInfo) (result : AnalysisResult) :
    Option AnalysisResult × Option String :=
  (some { result with
    BuildMetrics := some
      { BuildTime := Second * 2
        BundleSize := 1024 * 1024 * 10
        Dependencies := projectInfo.Dependencies.len
        Warnings := some [] } }, none)

/-- The function `analyzePythonProject`. -/
def analyzePythonProject (_projectInfo : ProjectInfo) (result : AnalysisResult) :
    Option AnalysisResult × Option String :=
  (some result, none)

/-- The function `RunAnalysis`, called with a non-nil `projectInfo`; `now` is
the value of `time.Now()` and `config` the unused `interface{}` argument. -/
def RunAnalysis {Config : Type} (now : Time) (projectInfo : ProjectInfo) (_config : Config) :
    Option AnalysisResult × Option String :=
  let result : AnalysisResult :=
    { ProjectInfo := some projectInfo
      BuildMetrics := none
      RuntimeMetrics := none
      StaticMetrics := none
      MemoryMetrics := none
      NetworkMetrics := none
      Timestamp := now }
  if projectInfo.Type_ = "JavaScript" then analyzeJSProject projectInfo result
  else if projectInfo.Type_ = "Go" then analyzeGoProject projectInfo result
  else if projectInfo.Type_ = "Python" then analyzePythonProject projectInfo result
  else (some result, some ("unsupported project type: " ++ projectInfo.Type_))

end analyzer

/-! ## internal/reporter/reporter.go -/

namespace reporter

open analyzer

/-- What a report can change: the text written to standard output and the
files of the working directory, as pairs of name and content. -/
structure World where
  stdout : String
  files : List (String × String)
  deriving DecidableEq

/-- The operating system and library calls the reporter makes. -/
structure ReportEnv where
  /-- The call `t.Format(layout)` of `time.Time`. -/
  Format : Time → String → String
  /-- The error of `os.Create(name)`, `none` when the file was created. -/
  Create : String → Option String
  /-- The call `encoder.Encode(result)` with two-space indentation: the bytes
  that reached the file, and the error. -/
  Encode : AnalysisResult → String × Option String
  /-- The call `file.WriteString(content)`: the bytes that reached the file,
  and the error. -/
  WriteString : String → String × Option String
  /-- The verb `%v` applied to a `time.Duration`. -/
  FmtDuration : Int → String
  /-- The verb `%.2f` applied to `float64(n)/(1024*1024)`. -/
  FmtMB : Int → String
  /-- The verb `%.2f` applied to a `float64`. -/
  FmtFloat : Float64 → String

/-- The layout constant `time.RFC3339`. -/
def RFC3339 : String := "2006-01-02T15:04:05Z07:00"

/-- The text of the nil-dereference panic of the Go run time. -/
def nilDeref : String := "runtime error: invalid memory address or nil pointer dereference"

/-- A write to standard output by `fmt.Println` or `fmt.Printf`. -/
def print (w : World) (s : String) : World := { w with stdout := w.stdout ++ s }

/-- The file `name` after `os.Create` succeeded and `content` was written. -/
def putFile (w : World) (name content : String) : World :=
  { w with files := (name, content) :: w.files.filter (fun f => f.1 != name) }

/-- The builtin `len` of a slice. -/
def sliceLen : Option (List String) → Nat
  | none => 0
  | some l => l.length

/-- The function `generateConsoleReport`: the world it leaves, and its return
value or panic. -/
def generateConsoleReport (env : ReportEnv) (result : Option AnalysisResult) (w : World) :
    World × Run (Option String) :=
  let w := print w "\n📊 Performance Analysis Report\n"
  let w := print w "==============================\n"
  match result with
  | none => (w, .panic nilDeref)
  | some result =>
    match result.ProjectInfo with
    | none => (w, .panic nilDeref)
    | some info =>
      let w := print w ("Project: " ++ info.Type_ ++ " (" ++ info.Framework ++ ")\n")
      let w := print w ("Analyzed at: " ++ env.Format result.Timestamp RFC3339 ++ "\n\n")
      let w :=
        match result.BuildMetrics with
        | none => w
        | some bm =>
          let w := print w "🏗️  Build Metrics:\n"
          let w := print w ("  Build Time: " ++ env.FmtDuration bm.BuildTime ++ "\n")
          let w := print w ("  Bundle Size: " ++ env.FmtMB bm.BundleSize ++ " MB\n")
          let w := print w ("  Dependencies: " ++ toString bm.Dependencies ++ "\n")
          let w :=
            if sliceLen bm.Warnings > 0 then
              print w ("  Warnings: " ++ toString (sliceLen bm.Warnings) ++ "\n")
            else w
          print w "\n"
      let w :=
        match result.RuntimeMetrics with
        | none => w
        | some rm =>
          let w := print w "⚡ Runtime Metrics:\n"
          let w := print w ("  Startup Time: " ++ env.FmtDuration rm.StartupTime ++ "\n")
          let w := print w ("  Memory Usage: " ++ env.FmtMB rm.MemoryUsage ++ " MB\n")
          let w := print w ("  CPU Usage: " ++ env.FmtFloat rm.CPUUsage ++ "%\n")
          print w "\n"
      let w :=
        match result.StaticMetrics with
        | none => w
        | some sm =>
          let w := print w "🔍 Static Analysis:\n"
          let w := print w ("  Lines of Code: " ++ toString sm.LinesOfCode ++ "\n")
          let w := print w ("  Complexity: " ++ toString sm.Complexity ++ "\n")
          let w := print w ("  Test Coverage: " ++ env.FmtFloat sm.TestCoverage ++ "%\n")
          print w "\n"
      (w, .ret none)

/-- The function `generateJSONReport`. -/
def generateJSONReport (env : ReportEnv) (result : Option AnalysisResult) (w : World) :
    World × Run (Option String) :=
  match result with
  | none => (w, .panic nilDeref)
  | some result =>
    let filename :=
      "performance-report-" ++ env.Format result.Timestamp "2006-01-02-15-04-05" ++ ".json"
    match env.Create filename with
    | some err => (w, .ret (some ("failed to create JSON report file: " ++ err)))
    | none =>
      let w := putFile w filename ""
      match env.Encode result with
      | (written, some err) =>
        (putFile w filename written, .ret (some ("failed to encode JSON report: " ++ err)))
      | (written, none) =>
        let w := putFile w filename written
        let w := print w ("📄 JSON report saved to: " ++ filename ++ "\n")
        (w, .ret none)

/-- The format string `htmlTemplate` with its five arguments filled in. -/
def htmlTemplate (typ framework generated sections : String) : String :=
  String.join
    [ "\n",
      "<!DOCTYPE html>\n",
      "<html>\n",
      "<head>\n",
      "    <title>Performance Report - ",
      typ,
      "</title>\n",
      "    <style>\n",
      "        body \x7b font-family: Arial, sans-serif; margin: 40px; background-color: #f5f5f5; \x7d\n",
      "        .container \x7b max-width: 800px; margin: 0 auto; background: white; padding: 30px; border-radius: 8px; box-shadow: 0 2px 4px rgba(0,0,0,0.1); \x7d\n",
      "        .header \x7b background: #2c3e50; color: white; padding: 20px; border-radius: 8px; margin-bottom: 20px; \x7d\n",
      "        .metric-section \x7b margin: 20px 0; \x7d\n",
      "        .metric-card \x7b background: #f8f9fa; padding: 15px; border-radius: 6px; margin: 10px 0; \x7d\n",
      "        .metric-value \x7b font-size: 1.5em; font-weight: bold; color: #3498db; \x7d\n",
      "        .metric-label \x7b color: #7f8c8d; \x7d\n",
      "    </style>\n",
      "</head>\n",
      "<body>\n",
      "    <div class=\"container\">\n",
      "        <div class=\"header\">\n",
      "            <h1>Performance Analysis Report</h1>\n",
      "            <p>Project: ",
      typ,
      " (",
      framework,
      ")</p>\n",
      "            <p>Generated: ",
      generated,
      "</p>\n",
      "        </div>\n",
      "        \n",
      "        ",
      sections,
      "\n",
      "    </div>\n",
      "</body>\n",
      "</html>\n" ]

/-- The format string of the build-metrics section with its three arguments
filled in. -/
def buildSection (buildTime bundleMB dependencies : String) : String :=
  String.join
    [ "\n",
      "        <div class=\"metric-section\">\n",
      "            <h3>🏗️ Build Metrics</h3>\n",
      "            <div class=\"metric-card\">\n",
      "                <div class=\"metric-label\">Build Time</div>\n",
      "                <div class=\"metric-value\">",
      buildTime,
      "</div>\n",
      "            </div>\n",
      "            <div class=\"metric-card\">\n",
      "                <div class=\"metric-label\">Bundle Size</div>\n",
      "                <div class=\"metric-value\">",
      bundleMB,
      " MB</div>\n",
      "            </div>\n",
      "            <div class=\"metric-card\">\n",
      "                <div class=\"metric-label\">Dependencies</div>\n",
      "                <div class=\"metric-value\">",
      dependencies,
      "</div>\n",
      "            </div>\n",
      "        </div>\n",
      "\t\t" ]

/-- The function `generateHTMLReport`. -/
def generateHTMLReport (env : ReportEnv) (result : Option AnalysisResult) (w : World) :
    World × Run (Option String) :=
  match result with
  | none => (w, .panic nilDeref)
  | some result =>
    let sections :=
      match result.BuildMetrics with
      | none => ""
      | some bm =>
        "" ++ buildSection (env.FmtDuration bm.BuildTime) (env.FmtMB bm.BundleSize)
          (toString bm.Dependencies)
    let filename :=
      "performance-report-" ++ env.Format result.Timestamp "2006-01-02-15-04-05" ++ ".html"
    match env.Create filename with
    | some err => (w, .ret (some ("failed to create HTML report file: " ++ err)))
    | none =>
      let w := putFile w filename ""
      match result.ProjectInfo with
      | none => (w, .panic nilDeref)
      | some info =>
        let content :=
          htmlTemplate info.Type_ info.Framework (env.Format result.Timestamp RFC3339) sections
        match env.WriteString content with
        | (written, some err) =>
          (putFile w filename written, .ret (some ("failed to write HTML report: " ++ err)))
        | (written, none) =>
          let w := putFile w filename written
          let w := print w ("📄 HTML report saved to: " ++ filename ++ "\n")
          (w, .ret none)

/-- The function `GenerateReport`. -/
def GenerateReport (env : ReportEnv) (result : Option AnalysisResult) (format : String)
    (w : World) : World × Run (Option String) :=
  if format = "console" then generateConsoleReport env result w
  else if format = "json" then generateJSONReport env result w
  else if format = "html" then generateHTMLReport env result w
  else (w, .ret (some ("unsupported output format: " ++ format)))

end reporter

/-! ## The specification's rule lists -/

/-- The specification's reading of a priority-ordered classification: an
ordered list of (predicate, label) rules evaluated in sequence, stopping at the
first rule whose predicate holds, with a default label when none holds. -/
def specFirstMatch : List (Bool × String) → String → String
  | [], dflt => dflt
  | (p, label) :: rest, dflt => if p then label else specFirstMatch rest dflt

/-! ## Example directories -/

namespace detector

/-- A directory snapshot: exactly the listed paths exist, reading one of them
yields the two bytes of `{}`, and decoding yields `pkg`. -/
def exampleEnv (files : List String) (pkg : Except String PackageJSON) : Env where
  Join := fun d f => d ++ "/" ++ f
  Stat := fun p => decide (p ∈ files)
  ReadFile := fun p => if p ∈ files then .ok [123, 125] else .error "no such file or directory"
  Unmarshal := fun _ => pkg

/-- The decoded manifest of the example JavaScript project: `react` is declared
in both dependency sections with different versions. -/
def examplePkg : PackageJSON where
  Dependencies := .alloc (((∅ : AList _).insert "react" "18.2.0").insert "next" "14.0.0")
  DevDependencies := .alloc (((∅ : AList _).insert "react" "17.0.0").insert "parcel" "2.9.0")
  Scripts := .nil

/-- A directory holding a JavaScript manifest next to Go and Java markers and
a rollup configuration. -/
def jsDir : Env :=
  exampleEnv ["/srv/app/package.json", "/srv/app/go.mod", "/srv/app/pom.xml",
    "/srv/app/rollup.config.js"] (.ok examplePkg)

/-- A directory holding `go.mod` next to Python and Java markers. -/
def goDir : Env :=
  exampleEnv ["/srv/app/go.mod", "/srv/app/requirements.txt", "/srv/app/build.gradle"]
    (.error "unexpected end of JSON input")

/-- A directory holding only `requirements.txt`. -/
def pythonDir : Env :=
  exampleEnv ["/srv/app/requirements.txt"] (.error "unexpected end of JSON input")

end detector

namespace analyzer

/-- A detected JavaScript project with three dependencies. -/
def jsInfo : detector.ProjectInfo where
  Type_ := "JavaScript"
  Framework := "Next.js"
  BuildTool := "Rollup"
  Language := "JavaScript"
  Dependencies :=
    .alloc ((((∅ : AList _).insert "react" "17.0.0").insert "next" "14.0.0").insert
      "parcel" "2.9.0")
  Scripts := .nil
  RootPath := "/srv/app"

/-- The instant used in the examples. -/
def exampleNow : Time := ⟨1700000000000000000⟩

end analyzer

namespace reporter

/-- A report environment in which every file operation succeeds. -/
def exampleReportEnv : ReportEnv where
  Format := fun _ layout => if layout = RFC3339 then "2023-11-14T22:13:20Z" else "2023-11-14-22-13-20"
  Create := fun _ => none
  Encode := fun _ => ("\x7b\x7d\n", none)
  WriteString := fun content => (content, none)
  FmtDuration := fun d => toString (d / 1000000000) ++ "s"
  FmtMB := fun n => toString (n / 1048576) ++ ".00"
  FmtFloat := fun _ => "0.00"

/-- A world with one earlier report on disk and some text already printed. -/
def exampleWorld : World where
  stdout := "pmon\n"
  files := [("performance-report-2023-11-13-08-00-00.json", "\x7b\x7d\n")]

/-- The analysis result of the example JavaScript project. -/
def exampleResult : Option analyzer.AnalysisResult :=
  (analyzer.RunAnalysis analyzer.exampleNow analyzer.jsInfo ()).1

end reporter

/-! ## Facts about Go maps -/

namespace GoMap

theorem foldlM_assign_alloc (l : List (Sigma (fun _ : String => String)))
    (a : AList (fun _ : String => String)) :
    l.foldlM (fun acc kv => GoMap.assign acc kv.1 kv.2) (alloc a) =
      some (alloc (l.foldl (fun acc kv => acc.insert kv.1 kv.2) a)) := by
  induction l generalizing a with
  | nil => rfl
  | cons kv t ih => simp only [List.foldlM, assign, List.foldl]; exact ih _

theorem lookup_foldl_insert (l : List (Sigma (fun _ : String => String)))
    (hl : l.NodupKeys) (a : AList (fun _ : String => String)) (k : String) :
    (l.foldl (fun acc kv => acc.insert kv.1 kv.2) a).lookup k =
      match l.dlookup k with
      | some v => some v
      | none => a.lookup k := by
  induction l generalizing a with
  | nil => rfl
  | cons kv t ih =>
    obtain ⟨k0, v0⟩ := kv
    rw [List.nodupKeys_cons] at hl
    rw [List.foldl, ih hl.2]
    by_cases hk : k = k0
    · subst hk
      have hnone : t.dlookup k = none := List.dlookup_eq_none.mpr hl.1
      simp [hnone, AList.lookup_insert]
    · rw [List.dlookup_cons_ne _ _ hk, AList.lookup_insert_ne hk]

/-- The loop `for k, v := range src { dst[k] = v }` on an allocated `dst`
ends without a panic, and leaves each key of `src` bound as in `src` and every
other key bound as before. -/
theorem rangeAssign_alloc (a : AList (fun _ : String => String)) (src : GoMap) :
    ∃ b, rangeAssign (alloc a) src = some (alloc b) ∧
      ∀ k, b.lookup k =
        match src.lookup k with
        | some v => some v
        | none => a.lookup k := by
  cases src with
  | nil => exact ⟨a, rfl, fun k => rfl⟩
  | alloc m =>
    refine ⟨_, foldlM_assign_alloc m.entries a, fun k => ?_⟩
    exact lookup_foldl_insert m.entries m.nodupKeys a k

end GoMap

/-! ## Facts about the detector -/

namespace detector

/-- The JavaScript branch of `DetectProject` when `package.json` is read and
decoded: the record returned, with the merged dependency map described key by
key. -/
theorem DetectProject_js (env : Env) (rootPath : String) (data : List Nat) (pkg : PackageJSON)
    (hpkg : hasFile env rootPath "package.json" = true)
    (hread : env.ReadFile (env.Join rootPath "package.json") = .ok data)
    (hparse : env.Unmarshal data = .ok pkg) :
    ∃ b : AList (fun _ : String => String),
      DetectProject env rootPath =
        .ret (some
          { Type_ := "JavaScript"
            Framework := detectFramework (.alloc b)
            BuildTool := detectBuildTool env rootPath (.alloc b)
            Language := "JavaScript"
            Dependencies := .alloc b
            Scripts := pkg.Scripts
            RootPath := rootPath }, none) ∧
      ∀ k, b.lookup k =
        match pkg.DevDependencies.lookup k with
        | some v => some v
        | none => pkg.Dependencies.lookup k := by
  obtain ⟨b1, h1, hb1⟩ := GoMap.rangeAssign_alloc ∅ pkg.Dependencies
  obtain ⟨b2, h2, hb2⟩ := GoMap.rangeAssign_alloc b1 pkg.DevDependencies
  refine ⟨b2, ?_, fun k => ?_⟩
  · simp only [DetectProject, hpkg, if_true, detectJSProject, hread, hparse, GoMap.make, h1, h2]
  · rw [hb2 k, hb1 k]
    cases pkg.Dependencies.lookup k <;> simp [AList.lookup_empty]

end detector

namespace detector

/-- C1: when `package.json`, if present, can be read and decoded,
`DetectProject` classifies by the first marker group present in the order
package.json, go.mod, (requirements.txt or pyproject.toml), (pom.xml or
build.gradle): Type and Language are both "JavaScript", "Go", "Python" or
"Java" for the first group that matches, whatever later markers exist. -/
theorem DetectProject_first_marker (env : Env) (rootPath : String)
    (hjson : hasFile env rootPath "package.json" = true →
      ∃ data pkg, env.ReadFile (env.Join rootPath "package.json") = .ok data ∧
        env.Unmarshal data = .ok pkg) :
    (hasFile env rootPath "package.json" = true →
      ∃ info, DetectProject env rootPath = .ret (some info, none) ∧
        info.Type_ = "JavaScript" ∧ info.Language = "JavaScript") ∧
    (hasFile env rootPath "package.json" = false →
      hasFile env rootPath "go.mod" = true →
      ∃ info, DetectProject env rootPath = .ret (some info, none) ∧
        info.Type_ = "Go" ∧ info.Language = "Go") ∧
    (hasFile env rootPath "package.json" = false →
      hasFile env rootPath "go.mod" = false →
      (hasFile env rootPath "requirements.txt" = true ∨
        hasFile env rootPath "pyproject.toml" = true) →
      ∃ info, DetectProject env rootPath = .ret (some info, none) ∧
        info.Type_ = "Python" ∧ info.Language = "Python") ∧
    (hasFile env rootPath "package.json" = false →
      hasFile env rootPath "go.mod" = false →
      hasFile env rootPath "requirements.txt" = false →
      hasFile env rootPath "pyproject.toml" = false →
      (hasFile env rootPath "pom.xml" = true ∨ hasFile env rootPath "build.gradle" = true) →
      ∃ info, DetectProject env rootPath = .ret (some info, none) ∧
        info.Type_ = "Java" ∧ info.Language = "Java") := by
  refine ⟨fun hp => ?_, fun hp hg => ?_, fun hp hg hpy => ?_, fun hp hg hr hy hj => ?_⟩
  · obtain ⟨data, pkg, hread, hparse⟩ := hjson hp
    obtain ⟨b, hb, -⟩ := DetectProject_js env rootPath data pkg hp hread hparse
    exact ⟨_, hb, rfl, rfl⟩
  · exact ⟨_, by simp only [DetectProject, hp, hg, detectGoProject]; rfl, rfl, rfl⟩
  · refine ⟨⟨"Python", "", "", "Python", GoMap.make, GoMap.make, rootPath⟩, ?_, rfl, rfl⟩
    rcases hpy with h | h <;>
      simp [DetectProject, hp, hg, h, detectPythonProject]
  · refine ⟨⟨"Java", "", "", "Java", GoMap.make, GoMap.make, rootPath⟩, ?_, rfl, rfl⟩
    rcases hj with h | h <;>
      simp [DetectProject, hp, hg, hr, hy, h, detectJavaProject]

end detector

namespace detector

/-- Witness of C1: in the example directory with `package.json`, `go.mod` and
`pom.xml`, the manifest is readable and the project is classified JavaScript. -/
theorem DetectProject_first_marker_witness :
    (hasFile jsDir "/srv/app" "package.json" = true →
      ∃ data pkg, jsDir.ReadFile (jsDir.Join "/srv/app" "package.json") = .ok data ∧
        jsDir.Unmarshal data = .ok pkg) ∧
    ∃ info, DetectProject jsDir "/srv/app" = .ret (some info, none) ∧
      info.Type_ = "JavaScript" ∧ info.Language = "JavaScript" :=
  ⟨fun _ => ⟨_, _, rfl, rfl⟩,
    (DetectProject_first_marker jsDir "/srv/app" (fun _ => ⟨_, _, rfl, rfl⟩)).1 rfl⟩

theorem DetectProject_read_error (env : Env) (rootPath err : String)
    (hpkg : hasFile env rootPath "package.json" = true)
    (hread : env.ReadFile (env.Join rootPath "package.json") = .error err) :
    DetectProject env rootPath = .ret (none, some ("error reading package.json: " ++ err)) := by
  simp only [DetectProject, hpkg, if_true, detectJSProject, hread]

theorem DetectProject_parse_error (env : Env) (rootPath err : String) (data : List Nat)
    (hpkg : hasFile env rootPath "package.json" = true)
    (hread : env.ReadFile (env.Join rootPath "package.json") = .ok data)
    (hparse : env.Unmarshal data = .error err) :
    DetectProject env rootPath = .ret (none, some ("error parsing package.json: " ++ err)) := by
  simp only [DetectProject, hpkg, if_true, detectJSProject, hread, hparse]

/-- C2: `DetectProject` never panics; it returns an error exactly when none of
the six marker files exists, or `package.json` exists and cannot be read or
cannot be decoded; and whenever it returns an error the `ProjectInfo` pointer
it returns is nil. -/
theorem DetectProject_fails_iff (env : Env) (rootPath : String) :
    ∃ r, DetectProject env rootPath = .ret r ∧
      (r.2 ≠ none ↔
        (hasFile env rootPath "package.json" = false ∧
          hasFile env rootPath "go.mod" = false ∧
          hasFile env rootPath "requirements.txt" = false ∧
          hasFile env rootPath "pyproject.toml" = false ∧
          hasFile env rootPath "pom.xml" = false ∧
          hasFile env rootPath "build.gradle" = false) ∨
        (hasFile env rootPath "package.json" = true ∧
          ((∃ err, env.ReadFile (env.Join rootPath "package.json") = .error err) ∨
            ∃ data err, env.ReadFile (env.Join rootPath "package.json") = .ok data ∧
              env.Unmarshal data = .error err))) ∧
      (r.2 ≠ none → r.1 = none) := by
  cases hp : hasFile env rootPath "package.json"
  · cases hg : hasFile env rootPath "go.mod" <;>
    cases hr : hasFile env rootPath "requirements.txt" <;>
    cases hy : hasFile env rootPath "pyproject.toml" <;>
    cases hm : hasFile env rootPath "pom.xml" <;>
    cases hb : hasFile env rootPath "build.gradle" <;>
    simp [DetectProject, hp, hg, hr, hy, hm, hb, detectGoProject, detectPythonProject,
      detectJavaProject]
  · cases hread : env.ReadFile (env.Join rootPath "package.json") with
    | error err =>
      refine ⟨_, DetectProject_read_error env rootPath err hp hread, ?_, fun _ => rfl⟩
      simp
    | ok data =>
      cases hparse : env.Unmarshal data with
      | error err =>
        refine ⟨_, DetectProject_parse_error env rootPath err data hp hread hparse, ?_,
          fun _ => rfl⟩
        simp [hparse]
      | ok pkg =>
        obtain ⟨b, hb, -⟩ := DetectProject_js env rootPath data pkg hp hread hparse
        refine ⟨_, hb, ?_, fun h => absurd rfl h⟩
        simp [hparse]

end detector

namespace detector

/-- C3: when `package.json` exists and decodes to dependencies `D`,
devDependencies `V` and scripts `S`, `DetectProject` returns Type and Language
"JavaScript" and an allocated Dependencies map whose keys are exactly the keys
of `D` and of `V`; a key of `V` maps to its version in `V`, any other key to
its version in `D`. -/
theorem DetectProject_merges_dependencies (env : Env) (rootPath : String) (data : List Nat)
    (D V S : GoMap)
    (hpkg : hasFile env rootPath "package.json" = true)
    (hread : env.ReadFile (env.Join rootPath "package.json") = .ok data)
    (hparse : env.Unmarshal data = .ok ⟨D, V, S⟩) :
    ∃ info, DetectProject env rootPath = .ret (some info, none) ∧
      info.Type_ = "JavaScript" ∧ info.Language = "JavaScript" ∧
      info.Dependencies.isNil = false ∧
      (∀ k, info.Dependencies.has k = true ↔ D.has k = true ∨ V.has k = true) ∧
      (∀ k v, V.lookup k = some v → info.Dependencies.lookup k = some v) ∧
      (∀ k, V.lookup k = none → info.Dependencies.lookup k = D.lookup k) := by
  obtain ⟨b, hb, hlook⟩ := DetectProject_js env rootPath data ⟨D, V, S⟩ hpkg hread hparse
  refine ⟨_, hb, rfl, rfl, rfl, fun k => ?_, fun k v hv => ?_, fun k hv => ?_⟩
  · have h := hlook k
    dsimp only at h
    show (AList.lookup k b).isSome = true ↔ _
    rw [h]
    unfold GoMap.has
    cases V.lookup k <;> cases D.lookup k <;> simp
  · have h := hlook k
    simp only [hv] at h
    exact h
  · have h := hlook k
    simp only [hv] at h
    exact h

/-- Witness of C3: in the example JavaScript directory `react` is declared as
18.2.0 in dependencies and 17.0.0 in devDependencies; the merged map follows
devDependencies. -/
theorem DetectProject_merges_dependencies_witness :
    (hasFile jsDir "/srv/app" "package.json" = true ∧
      jsDir.ReadFile (jsDir.Join "/srv/app" "package.json") = .ok [123, 125] ∧
      jsDir.Unmarshal [123, 125] =
        .ok ⟨examplePkg.Dependencies, examplePkg.DevDependencies, examplePkg.Scripts⟩) ∧
    ∃ info, DetectProject jsDir "/srv/app" = .ret (some info, none) ∧
      info.Type_ = "JavaScript" ∧ info.Language = "JavaScript" ∧
      info.Dependencies.isNil = false ∧
      (∀ k, info.Dependencies.has k = true ↔
        examplePkg.Dependencies.has k = true ∨ examplePkg.DevDependencies.has k = true) ∧
      (∀ k v, examplePkg.DevDependencies.lookup k = some v →
        info.Dependencies.lookup k = some v) ∧
      (∀ k, examplePkg.DevDependencies.lookup k = none →
        info.Dependencies.lookup k = examplePkg.Dependencies.lookup k) :=
  ⟨⟨rfl, rfl, rfl⟩,
    DetectProject_merges_dependencies jsDir "/srv/app" [123, 125] examplePkg.Dependencies
      examplePkg.DevDependencies examplePkg.Scripts rfl rfl rfl⟩

/-- C10: a directory with `go.mod` and without `package.json` is detected as
Type "Go", Language "Go", Framework "Standard Library", BuildTool "Go Build",
with allocated, empty Dependencies and Scripts, whichever of the Python and
Java markers exist. -/
theorem DetectProject_go (env : Env) (rootPath : String)
    (hgo : hasFile env rootPath "go.mod" = true)
    (hpkg : hasFile env rootPath "package.json" = false) :
    ∃ info, DetectProject env rootPath = .ret (some info, none) ∧
      info.Type_ = "Go" ∧ info.Language = "Go" ∧
      info.Framework = "Standard Library" ∧ info.BuildTool = "Go Build" ∧
      info.Dependencies = .alloc ∅ ∧ info.Dependencies.len = 0 ∧
      info.Scripts = .alloc ∅ ∧ info.Scripts.len = 0 :=
  ⟨⟨"Go", "Standard Library", "Go Build", "Go", GoMap.make, GoMap.make, rootPath⟩,
    by simp only [DetectProject, hpkg, hgo, detectGoProject]; rfl,
    rfl, rfl, rfl, rfl, rfl, rfl, rfl, rfl⟩

/-- Witness of C10: the example directory holds `go.mod`, `requirements.txt`
and `build.gradle` and no `package.json`. -/
theorem DetectProject_go_witness :
    (hasFile goDir "/srv/app" "go.mod" = true ∧
      hasFile goDir "/srv/app" "package.json" = false ∧
      hasFile goDir "/srv/app" "requirements.txt" = true ∧
      hasFile goDir "/srv/app" "build.gradle" = true) ∧
    ∃ info, DetectProject goDir "/srv/app" = .ret (some info, none) ∧
      info.Type_ = "Go" ∧ info.Language = "Go" ∧
      info.Framework = "Standard Library" ∧ info.BuildTool = "Go Build" ∧
      info.Dependencies = .alloc ∅ ∧ info.Dependencies.len = 0 ∧
      info.Scripts = .alloc ∅ ∧ info.Scripts.len = 0 :=
  ⟨⟨rfl, rfl, rfl, rfl⟩, DetectProject_go goDir "/srv/app" rfl rfl⟩

end detector

namespace detector

theorem detectFramework_ne_empty (deps : GoMap) : detectFramework deps ≠ "" := by
  unfold detectFramework
  split_ifs <;> decide

theorem detectBuildTool_ne_empty (env : Env) (rootPath : String) (deps : GoMap) :
    detectBuildTool env rootPath deps ≠ "" := by
  unfold detectBuildTool
  split_ifs <;> decide

/-- Counterexample to C4 as stated: for the directory holding only
`requirements.txt` detection succeeds, and the record returned has an empty
Framework and an empty BuildTool. -/
theorem DetectProject_python_fields_empty :
    ∃ info, DetectProject pythonDir "/srv/app" = .ret (some info, none) ∧
      info.Type_ = "Python" ∧ info.Framework = "" ∧ info.BuildTool = "" :=
  ⟨⟨"Python", "", "", "Python", GoMap.make, GoMap.make, "/srv/app"⟩, rfl, rfl, rfl, rfl⟩

/-- C4, amended: `DetectProject` never panics and returns a record exactly
when it returns no error; a returned record has Type one of "JavaScript",
"Go", "Python", "Java" (so non-empty), Language equal to Type, an allocated
Dependencies map and RootPath equal to the argument; Framework and BuildTool
are non-empty for "JavaScript" and "Go" and empty for "Python" and "Java";
Scripts is an allocated map for every Type other than "JavaScript". -/
theorem DetectProject_result_shape (env : Env) (rootPath : String) :
    ∃ r, DetectProject env rootPath = .ret r ∧
      (r.1 ≠ none ↔ r.2 = none) ∧
      ∀ info, r.1 = some info →
        (info.Type_ = "JavaScript" ∨ info.Type_ = "Go" ∨ info.Type_ = "Python" ∨
          info.Type_ = "Java") ∧
        info.Type_ ≠ "" ∧ info.Language = info.Type_ ∧
        info.Dependencies.isNil = false ∧ info.RootPath = rootPath ∧
        (info.Type_ = "JavaScript" ∨ info.Type_ = "Go" →
          info.Framework ≠ "" ∧ info.BuildTool ≠ "") ∧
        (info.Type_ = "Python" ∨ info.Type_ = "Java" →
          info.Framework = "" ∧ info.BuildTool = "") ∧
        (info.Type_ ≠ "JavaScript" → info.Scripts.isNil = false) := by
  cases hp : hasFile env rootPath "package.json"
  · cases hg : hasFile env rootPath "go.mod" <;>
    cases hr : hasFile env rootPath "requirements.txt" <;>
    cases hy : hasFile env rootPath "pyproject.toml" <;>
    cases hm : hasFile env rootPath "pom.xml" <;>
    cases hb : hasFile env rootPath "build.gradle" <;>
    simp [DetectProject, hp, hg, hr, hy, hm, hb, detectGoProject, detectPythonProject,
      detectJavaProject, GoMap.make, GoMap.isNil]
  · cases hread : env.ReadFile (env.Join rootPath "package.json") with
    | error err =>
      refine ⟨_, DetectProject_read_error env rootPath err hp hread, ?_, ?_⟩ <;> simp
    | ok data =>
      cases hparse : env.Unmarshal data with
      | error err =>
        refine ⟨_, DetectProject_parse_error env rootPath err data hp hread hparse, ?_, ?_⟩ <;>
          simp
      | ok pkg =>
        obtain ⟨b, hb, -⟩ := DetectProject_js env rootPath data pkg hp hread hparse
        refine ⟨_, hb, by simp, fun info hinfo => ?_⟩
        simp only [Option.some.injEq] at hinfo
        subst hinfo
        have hne : ("JavaScript" : String) ≠ "" := by decide
        have hpy : ("JavaScript" : String) ≠ "Python" := by decide
        have hja : ("JavaScript" : String) ≠ "Java" := by decide
        refine ⟨Or.inl rfl, hne, rfl, rfl, rfl, fun _ => ?_, fun h => ?_, fun h => ?_⟩
        · exact ⟨detectFramework_ne_empty _, detectBuildTool_ne_empty _ _ _⟩
        · rcases h with h | h
          · exact absurd h hpy
          · exact absurd h hja
        · exact absurd rfl h

/-- The Scripts map of a JavaScript result is the decoded `scripts` field as it
is, the nil map included: the example manifest has no scripts. -/
theorem DetectProject_js_scripts_nil :
    ∃ info, DetectProject jsDir "/srv/app" = .ret (some info, none) ∧
      info.Scripts = GoMap.nil :=
  ⟨_, rfl, rfl⟩

end detector

namespace detector

/-- C5: `detectFramework` is the first-match evaluation of the rules
next → "Next.js", react → "React", vue → "Vue.js", angular → "Angular",
svelte → "Svelte" with default "Vanilla JavaScript"; it depends on the keys
only, not on the versions; the default is returned exactly when none of the
five keys is present; with `next` present the result is "Next.js" and not
"React", whether or not `react` is present. -/
theorem detectFramework_first_match (deps : GoMap) :
    detectFramework deps =
      specFirstMatch
        [(deps.has "next", "Next.js"), (deps.has "react", "React"), (deps.has "vue", "Vue.js"),
          (deps.has "angular", "Angular"), (deps.has "svelte", "Svelte")]
        "Vanilla JavaScript" ∧
    (deps.has "next" = true →
      detectFramework deps = "Next.js" ∧ detectFramework deps ≠ "React") ∧
    (deps.has "next" = false → deps.has "react" = true → detectFramework deps = "React") ∧
    (deps.has "next" = false → deps.has "react" = false → deps.has "vue" = true →
      detectFramework deps = "Vue.js") ∧
    (deps.has "next" = false → deps.has "react" = false → deps.has "vue" = false →
      deps.has "angular" = true → detectFramework deps = "Angular") ∧
    (deps.has "next" = false → deps.has "react" = false → deps.has "vue" = false →
      deps.has "angular" = false → deps.has "svelte" = true →
      detectFramework deps = "Svelte") ∧
    (detectFramework deps = "Vanilla JavaScript" ↔
      deps.has "next" = false ∧ deps.has "react" = false ∧ deps.has "vue" = false ∧
        deps.has "angular" = false ∧ deps.has "svelte" = false) ∧
    (∀ other : GoMap, (∀ k, other.has k = deps.has k) →
      detectFramework other = detectFramework deps) := by
  refine ⟨?_, ?_, ?_, ?_, ?_, ?_, ?_, ?_⟩
  · simp only [detectFramework, specFirstMatch]
  · intro h
    simp [detectFramework, h]
  · intro h1 h2
    simp [detectFramework, h1, h2]
  · intro h1 h2 h3
    simp [detectFramework, h1, h2, h3]
  · intro h1 h2 h3 h4
    simp [detectFramework, h1, h2, h3, h4]
  · intro h1 h2 h3 h4 h5
    simp [detectFramework, h1, h2, h3, h4, h5]
  · cases h1 : deps.has "next" <;> cases h2 : deps.has "react" <;>
    cases h3 : deps.has "vue" <;> cases h4 : deps.has "angular" <;>
    cases h5 : deps.has "svelte" <;>
    simp [detectFramework, h1, h2, h3, h4, h5]
  · intro other h
    simp only [detectFramework, h]

/-- C6: `detectBuildTool` is the first-match evaluation of the rules
(vite.config.js or vite.config.ts) → "Vite", (webpack.config.js or
webpack.config.ts) → "Webpack", key `parcel` → "Parcel", rollup.config.js →
"Rollup" with default "Unknown"; so a vite configuration wins over everything,
a webpack configuration over `parcel` and rollup, and `parcel` over rollup. -/
theorem detectBuildTool_first_match (env : Env) (rootPath : String) (deps : GoMap) :
    detectBuildTool env rootPath deps =
      specFirstMatch
        [(hasFile env rootPath "vite.config.js" || hasFile env rootPath "vite.config.ts", "Vite"),
          (hasFile env rootPath "webpack.config.js" || hasFile env rootPath "webpack.config.ts",
            "Webpack"),
          (deps.has "parcel", "Parcel"),
          (hasFile env rootPath "rollup.config.js", "Rollup")]
        "Unknown" ∧
    (hasFile env rootPath "vite.config.js" = true ∨ hasFile env rootPath "vite.config.ts" = true →
      detectBuildTool env rootPath deps = "Vite") ∧
    (hasFile env rootPath "vite.config.js" = false →
      hasFile env rootPath "vite.config.ts" = false →
      (hasFile env rootPath "webpack.config.js" = true ∨
        hasFile env rootPath "webpack.config.ts" = true) →
      detectBuildTool env rootPath deps = "Webpack") ∧
    (hasFile env rootPath "vite.config.js" = false →
      hasFile env rootPath "vite.config.ts" = false →
      hasFile env rootPath "webpack.config.js" = false →
      hasFile env rootPath "webpack.config.ts" = false →
      deps.has "parcel" = true →
      detectBuildTool env rootPath deps = "Parcel") ∧
    (hasFile env rootPath "vite.config.js" = false →
      hasFile env rootPath "vite.config.ts" = false →
      hasFile env rootPath "webpack.config.js" = false →
      hasFile env rootPath "webpack.config.ts" = false →
      deps.has "parcel" = false →
      hasFile env rootPath "rollup.config.js" = true →
      detectBuildTool env rootPath deps = "Rollup") ∧
    (hasFile env rootPath "vite.config.js" = false →
      hasFile env rootPath "vite.config.ts" = false →
      hasFile env rootPath "webpack.config.js" = false →
      hasFile env rootPath "webpack.config.ts" = false →
      deps.has "parcel" = false →
      hasFile env rootPath "rollup.config.js" = false →
      detectBuildTool env rootPath deps = "Unknown") := by
  refine ⟨?_, ?_, ?_, ?_, ?_, ?_⟩
  · simp only [detectBuildTool, specFirstMatch]
  · intro h
    rcases h with h | h <;> simp [detectBuildTool, h]
  · intro h1 h2 h
    rcases h with h | h <;> simp [detectBuildTool, h1, h2, h]
  · intro h1 h2 h3 h4 h5
    simp [detectBuildTool, h1, h2, h3, h4, h5]
  · intro h1 h2 h3 h4 h5 h6
    simp [detectBuildTool, h1, h2, h3, h4, h5, h6]
  · intro h1 h2 h3 h4 h5 h6
    simp [detectBuildTool, h1, h2, h3, h4, h5, h6]

end detector

namespace analyzer

open detector

/-- C7: `RunAnalysis` returns a nil error exactly when Type is "JavaScript",
"Go" or "Python"; for every other Type, "Java" and the empty string included,
the error text is "unsupported project type: " followed by the Type. -/
theorem RunAnalysis_supported_iff {Config : Type} (now : Time) (info : ProjectInfo)
    (config : Config) :
    ((RunAnalysis now info config).2 = none ↔
      info.Type_ = "JavaScript" ∨ info.Type_ = "Go" ∨ info.Type_ = "Python") ∧
    (¬(info.Type_ = "JavaScript" ∨ info.Type_ = "Go" ∨ info.Type_ = "Python") →
      (RunAnalysis now info config).2 = some ("unsupported project type: " ++ info.Type_)) ∧
    (info.Type_ = "Java" →
      (RunAnalysis now info config).2 = some "unsupported project type: Java") ∧
    (info.Type_ = "" →
      (RunAnalysis now info config).2 = some "unsupported project type: ") := by
  have hgj : ("Go" : String) ≠ "JavaScript" := by decide
  have hpj : ("Python" : String) ≠ "JavaScript" := by decide
  have hpg : ("Python" : String) ≠ "Go" := by decide
  refine ⟨?_, ?_, ?_, ?_⟩
  · by_cases h1 : info.Type_ = "JavaScript"
    · simp [RunAnalysis, h1, analyzeJSProject]
    · by_cases h2 : info.Type_ = "Go"
      · simp [RunAnalysis, h2, hgj, analyzeGoProject]
      · by_cases h3 : info.Type_ = "Python"
        · simp [RunAnalysis, h3, hpj, hpg, analyzePythonProject]
        · simp [RunAnalysis, h1, h2, h3]
  · intro h
    simp only [not_or] at h
    simp [RunAnalysis, h.1, h.2.1, h.2.2]
  · intro h
    simp only [RunAnalysis, h]
    rfl
  · intro h
    simp only [RunAnalysis, h]
    rfl

theorem RunAnalysis_js {Config : Type} (now : Time) (info : ProjectInfo) (config : Config)
    (h : info.Type_ = "JavaScript") :
    RunAnalysis now info config =
      (some
        { ProjectInfo := some info
          BuildMetrics := some
            { BuildTime := 5 * Second
              BundleSize := 1048576
              Dependencies := info.Dependencies.len
              Warnings := some [] }
          RuntimeMetrics := none
          StaticMetrics := none
          MemoryMetrics := none
          NetworkMetrics := none
          Timestamp := now }, none) := by
  simp only [RunAnalysis, h, if_true, analyzeJSProject]
  rfl

theorem RunAnalysis_go {Config : Type} (now : Time) (info : ProjectInfo) (config : Config)
    (h : info.Type_ = "Go") :
    RunAnalysis now info config =
      (some
        { ProjectInfo := some info
          BuildMetrics := some
            { BuildTime := 2 * Second
              BundleSize := 10485760
              Dependencies := info.Dependencies.len
              Warnings := some [] }
          RuntimeMetrics := none
          StaticMetrics := none
          MemoryMetrics := none
          NetworkMetrics := none
          Timestamp := now }, none) := by
  have hgj : ("Go" : String) ≠ "JavaScript" := by decide
  simp only [RunAnalysis, h, hgj, if_true, if_false, analyzeGoProject]
  rfl

theorem RunAnalysis_python {Config : Type} (now : Time) (info : ProjectInfo) (config : Config)
    (h : info.Type_ = "Python") :
    RunAnalysis now info config =
      (some
        { ProjectInfo := some info
          BuildMetrics := none
          RuntimeMetrics := none
          StaticMetrics := none
          MemoryMetrics := none
          NetworkMetrics := none
          Timestamp := now }, none) := by
  have hpj : ("Python" : String) ≠ "JavaScript" := by decide
  have hpg : ("Python" : String) ≠ "Go" := by decide
  simp only [RunAnalysis, h, hpj, hpg, if_true, if_false, analyzePythonProject]

/-- C8: when `RunAnalysis` returns a nil error, the result it returns carries
the given `ProjectInfo`; for Type "JavaScript" BuildMetrics is present with
BuildTime 5 seconds, BundleSize 1048576, Dependencies the `len` of the
dependency map and an empty Warnings slice; for Type "Go" likewise with
2 seconds and 10485760; for Type "Python" BuildMetrics is absent; the four
other metrics are absent in every case. -/
theorem RunAnalysis_metrics {Config : Type} (now : Time) (info : ProjectInfo) (config : Config)
    (hok : (RunAnalysis now info config).2 = none) :
    ∃ res, (RunAnalysis now info config).1 = some res ∧
      res.ProjectInfo = some info ∧
      (info.Type_ = "JavaScript" →
        res.BuildMetrics = some
          { BuildTime := 5 * Second
            BundleSize := 1048576
            Dependencies := info.Dependencies.len
            Warnings := some [] }) ∧
      (info.Type_ = "Go" →
        res.BuildMetrics = some
          { BuildTime := 2 * Second
            BundleSize := 10485760
            Dependencies := info.Dependencies.len
            Warnings := some [] }) ∧
      (info.Type_ = "Python" → res.BuildMetrics = none) ∧
      res.RuntimeMetrics = none ∧ res.StaticMetrics = none ∧
      res.MemoryMetrics = none ∧ res.NetworkMetrics = none := by
  have hgj : ("Go" : String) ≠ "JavaScript" := by decide
  have hpj : ("Python" : String) ≠ "JavaScript" := by decide
  have hpg : ("Python" : String) ≠ "Go" := by decide
  by_cases h1 : info.Type_ = "JavaScript"
  · rw [RunAnalysis_js now info config h1]
    exact ⟨_, rfl, rfl, fun _ => rfl, fun h => absurd (h1.symm.trans h) hgj.symm,
      fun h => absurd (h1.symm.trans h) hpj.symm, rfl, rfl, rfl, rfl⟩
  · by_cases h2 : info.Type_ = "Go"
    · rw [RunAnalysis_go now info config h2]
      exact ⟨_, rfl, rfl, fun h => absurd h h1, fun _ => rfl,
        fun h => absurd (h2.symm.trans h) hpg.symm, rfl, rfl, rfl, rfl⟩
    · by_cases h3 : info.Type_ = "Python"
      · rw [RunAnalysis_python now info config h3]
        exact ⟨_, rfl, rfl, fun h => absurd h h1, fun h => absurd h h2, fun _ => rfl,
          rfl, rfl, rfl, rfl⟩
      · exfalso
        simp [RunAnalysis, h1, h2, h3] at hok

/-- Witness of C8: the example JavaScript project has three dependencies. -/
theorem RunAnalysis_metrics_witness :
    (RunAnalysis exampleNow jsInfo ()).2 = none ∧
    ∃ res, (RunAnalysis exampleNow jsInfo ()).1 = some res ∧
      res.ProjectInfo = some jsInfo ∧
      (jsInfo.Type_ = "JavaScript" →
        res.BuildMetrics = some
          { BuildTime := 5 * Second
            BundleSize := 1048576
            Dependencies := jsInfo.Dependencies.len
            Warnings := some [] }) ∧
      (jsInfo.Type_ = "Go" →
        res.BuildMetrics = some
          { BuildTime := 2 * Second
            BundleSize := 10485760
            Dependencies := jsInfo.Dependencies.len
            Warnings := some [] }) ∧
      (jsInfo.Type_ = "Python" → res.BuildMetrics = none) ∧
      res.RuntimeMetrics = none ∧ res.StaticMetrics = none ∧
      res.MemoryMetrics = none ∧ res.NetworkMetrics = none :=
  ⟨rfl, RunAnalysis_metrics exampleNow jsInfo () rfl⟩

end analyzer

namespace reporter

open analyzer

/-- C9: for a format other than "console", "json" and "html", `GenerateReport`
returns the error "unsupported output format: " followed by the format, and
leaves the files and the standard output as they were. -/
theorem GenerateReport_unsupported (env : ReportEnv) (result : Option AnalysisResult)
    (format : String) (w : World)
    (hconsole : format ≠ "console") (hjson : format ≠ "json") (hhtml : format ≠ "html") :
    GenerateReport env result format w =
      (w, .ret (some ("unsupported output format: " ++ format))) := by
  simp only [GenerateReport, hconsole, hjson, hhtml, if_false]

/-- Witness of C9: the format "xml". -/
theorem GenerateReport_unsupported_witness :
    ("xml" ≠ "console" ∧ "xml" ≠ "json" ∧ "xml" ≠ "html") ∧
    GenerateReport exampleReportEnv exampleResult "xml" exampleWorld =
      (exampleWorld, .ret (some "unsupported output format: xml")) :=
  ⟨⟨by decide, by decide, by decide⟩,
    GenerateReport_unsupported exampleReportEnv exampleResult "xml" exampleWorld
      (by decide) (by decide) (by decide)⟩

end reporter
